import Mathlib

/-!
Shallow embedding of the Shopify PDP AI testing POC
(`src/run-tests.ts`, `src/capability-detector.ts`, `src/code-generator.ts`,
`src/types.ts`), together with proofs about the capability-gated test
selection and the execution-trace-to-script generation pipeline.

Conventions of the embedding:
* JavaScript strings are Lean `String`s; `===` on strings is `==`.
* The catalog field `preconditions.productState` has TypeScript type
  `string | string[]`, but the JSON is loaded without validation, so a
  run-time value may have any other shape; `ProductState.other` stands for
  every non-string, non-array value.
* Asynchronous browser / AI calls are modelled by an `Env` of `Except`-valued
  oracles: `Except.error m` is a thrown collaborator fault with message `m`
  (timeout, absent element, AI failure).  Thrown `expect(...)` assertion
  faults are modelled by `Fault.assertion` carrying the fixed matcher
  message of the assertion library (every such message starts with
  `expect(`).  `executeTest` classifies a caught fault exactly as the
  source does: by testing whether its message mentions `expect`.
* Stateful log recording (`log.push(...)`) is explicit state passing in the
  `EM` monad: a computation takes the log recorded so far and returns the
  log at its end together with either a value or the thrown fault.
* `Date.now()` readings are supplied as explicit numeric parameters
  (`Env.now` for step timestamps, `startTime`/`endTime` for durations).
-/

/-! ## Data model (`types.ts`) -/

inductive StepAction where
  | observe
  | act
  | extract
  | assert
deriving DecidableEq

/-- A JSON-ish value recorded in the `result` field of an execution step
(`result?: any`): the program records booleans, numbers and one object
shape `\x7b isVisible, isEnabled \x7d`. -/
inductive Value where
  | bool (b : Bool)
  | num (n : Nat)
  | str (s : String)
  | pair (isVisible isEnabled : Bool)
deriving DecidableEq

structure ExecutionStep where
  timestamp : Nat
  action : StepAction
  instruction : Option String
  selector : Option String
  result : Option Value
deriving DecidableEq

inductive Status where
  | pass
  | fail
  | error
deriving DecidableEq

structure TestResult where
  testId : String
  status : Status
  duration : Nat
  error : Option String
  executionLog : List ExecutionStep
deriving DecidableEq

/-- `preconditions.productState : string | string[]` as it may arrive from
the unvalidated JSON catalog: a string, an array of strings, or any other
shape. -/
inductive ProductState where
  | str (s : String)
  | list (l : List String)
  | other
deriving DecidableEq

structure Preconditions where
  productState : ProductState
  userState : String
  viewport : String
deriving DecidableEq

structure TestCase where
  id : String
  name : String
  description : String
  category : String
  priority : String
  preconditions : Preconditions
deriving DecidableEq

structure TestLibrary where
  version : String
  name : String
  description : String
  pageTypes : List String
  templates : List TestCase
  productStateDefinitions : List (String × String)
  userStateDefinitions : List (String × String)
  viewportDefinitions : List (String × String)
  categoryDefinitions : List (String × String)
deriving DecidableEq

/-! ## String utilities shared by the embedding -/

/-- JavaScript `String.prototype.includes` on character lists. -/
def charsHaveSub (pat : List Char) : List Char → Bool
  | [] => pat.isEmpty
  | c :: rest => List.isPrefixOf pat (c :: rest) || charsHaveSub pat rest

/-- JavaScript `s.includes(pat)`. -/
def strIncludes (s pat : String) : Bool :=
  charsHaveSub pat.toList s.toList

/-- JavaScript `s.startsWith(p)` (computed on character lists so that it
reduces structurally). -/
def strStartsWith (s p : String) : Bool :=
  List.isPrefixOf p.toList s.toList

/-! ## Test selector (`run-tests.ts`, `selectApplicableTests`) -/

/-- The filter callback of `selectApplicableTests`: `required === 'any'`
always matches, a single string matches iff it is among the detected
states, an array matches iff every element is among the detected states
(`Array.prototype.every`), anything else falls through to `return false`. -/
def productStateMatches (required : ProductState) (detectedStates : List String) : Bool :=
  match required with
  | ProductState.str s =>
      if s == "any" then true else detectedStates.contains s
  | ProductState.list l => l.all (fun state => detectedStates.contains state)
  | ProductState.other => false

/-- `selectApplicableTests(tests, detectedStates)`. -/
def selectApplicableTests (tests : List TestCase) (detectedStates : List String) : List TestCase :=
  tests.filter (fun test => productStateMatches test.preconditions.productState detectedStates)

/-! ## Capability detector (`capability-detector.ts`) -/

/-- Structured result of the single AI extraction call, per the zod
`CapabilitySchema`. -/
structure DetectedCapabilities where
  inStock : Bool
  hasVariants : Bool
  onSale : Bool
  hasSubscription : Bool
  hasMultipleImages : Bool
  additionalStates : Option (List String)
deriving DecidableEq

/-- `detectCapabilities`: the extraction call either returns a structured
result or throws (its argument models `await page.extract(...)`).  On
success the booleans are converted to state strings in source order and
`"any"` is appended; on any thrown fault the catch block returns the
minimal list `["any"]`. -/
def detectCapabilities (extraction : Except String DetectedCapabilities) : List String :=
  match extraction with
  | Except.error _ => ["any"]
  | Except.ok result =>
      let states : List String := []
      let states := states ++ [if result.inStock then "in_stock" else "out_of_stock"]
      let states := if result.hasVariants then states ++ ["has_variants"] else states
      let states := if result.onSale then states ++ ["on_sale"] else states
      let states := if result.hasSubscription then states ++ ["has_subscription"] else states
      let states := if result.hasMultipleImages then states ++ ["multiple_images"] else states
      let states :=
        match result.additionalStates with
        | some l => if l.length > 0 then states ++ l else states
        | none => states
      states ++ ["any"]

/-! ## Execution model (`run-tests.ts`, `executeTest` and the category
procedures)

A thrown fault is either an assertion fault raised by one of the fixed
`expect(...)` matchers (whose library messages all begin with `expect(`)
or a collaborator fault (timeout, structurally absent element, AI call
failure) carrying the collaborator's message.  The constructor is ghost
provenance only: `executeTest` inspects nothing but the message, exactly
like the source. -/

inductive AssertKind where
  | toBe
  | toBeTruthy
  | toMatch
  | toBeGreaterThan
deriving DecidableEq

/-- The (fixed) message of each assertion matcher used by the program. -/
def assertMessage : AssertKind → String
  | AssertKind.toBe => "expect(received).toBe(expected) // Object.is equality"
  | AssertKind.toBeTruthy => "expect(received).toBeTruthy()"
  | AssertKind.toMatch => "expect(received).toMatch(expected)"
  | AssertKind.toBeGreaterThan => "expect(received).toBeGreaterThan(expected)"

inductive Fault where
  | assertion (kind : AssertKind)
  | env (message : String)
deriving DecidableEq

def Fault.message : Fault → String
  | Fault.assertion k => assertMessage k
  | Fault.env m => m

def Fault.isAssertion : Fault → Bool
  | Fault.assertion _ => true
  | Fault.env _ => false

/-- Execution monad: explicit passing of the `executionLog` array plus
exceptions.  A computation maps the log recorded so far to the log at its
end and either a value or the thrown fault. -/
def EM (α : Type) : Type :=
  List ExecutionStep → List ExecutionStep × Except Fault α

def EM.pure {α : Type} (a : α) : EM α :=
  fun log => (log, Except.ok a)

def EM.bind {α β : Type} (m : EM α) (k : α → EM β) : EM β :=
  fun log =>
    match m log with
    | (log2, Except.ok a) => k a log2
    | (log2, Except.error f) => (log2, Except.error f)

instance : Monad EM where
  pure := EM.pure
  bind := EM.bind

/-- Await a collaborator call: a thrown collaborator fault becomes a
`Fault.env`. -/
def liftE {α : Type} (e : Except String α) : EM α :=
  fun log =>
    match e with
    | Except.ok a => (log, Except.ok a)
    | Except.error m => (log, Except.error (Fault.env m))

/-- `log.push(step)`. -/
def pushStep (s : ExecutionStep) : EM Unit :=
  fun log => (log ++ [s], Except.ok ())

def throwFault {α : Type} (f : Fault) : EM α :=
  fun log => (log, Except.error f)

/-- `expect(received).toBe(expected)` on booleans. -/
def expectToBe (received expected : Bool) : EM Unit :=
  if received == expected then EM.pure () else throwFault (Fault.assertion AssertKind.toBe)

/-- Truthiness of `string | null` (`expect(text).toBeTruthy()`). -/
def textTruthy : Option String → Bool
  | none => false
  | some s => !(s == "")

def expectTruthyText (t : Option String) : EM Unit :=
  if textTruthy t then EM.pure () else throwFault (Fault.assertion AssertKind.toBeTruthy)

def expectGreaterThan (received threshold : Nat) : EM Unit :=
  if received > threshold then EM.pure () else throwFault (Fault.assertion AssertKind.toBeGreaterThan)

/-- Character class of the price regex `[₹$£€¥]`. -/
def isCurrencyChar (c : Char) : Bool :=
  c == '₹' || c == '$' || c == '£' || c == '€' || c == '¥'

def isDigitOrComma (c : Char) : Bool :=
  c.isDigit || c == ','

/-- After a currency symbol: `\s*` then at least one of `[\d,]` (the two
character classes are disjoint, so the greedy scan is exact). -/
def amountAfterSpaces : List Char → Bool
  | [] => false
  | c :: rest => if c.isWhitespace then amountAfterSpaces rest else isDigitOrComma c

/-- Unanchored test of `/[₹$£€¥]\s*[\d,]+/` against a string. -/
def currencyAmountScan : List Char → Bool
  | [] => false
  | c :: rest => (isCurrencyChar c && amountAfterSpaces rest) || currencyAmountScan rest

def priceHasCurrencyAmount (s : String) : Bool :=
  currencyAmountScan s.toList

/-- `expect(priceText).toMatch(/[₹$£€¥]\s*[\d,]+/)`. -/
def expectMatchPrice (s : String) : EM Unit :=
  if priceHasCurrencyAmount s then EM.pure () else throwFault (Fault.assertion AssertKind.toMatch)

/-- The browser/AI collaborators, as a snapshot of oracles keyed by the
selector strings the program uses.  `Except.error m` models a thrown
collaborator fault with message `m`.  `now` supplies `Date.now()` for step
timestamps. -/
structure Env where
  now : Nat
  count : String → Except String Nat
  isVisible : String → Except String Bool
  isEnabled : String → Except String Bool
  textContent : String → Except String (Option String)
  roleAtcCount : Except String Nat
  roleAtcVisible : Except String Bool
  roleAtcEnabled : Except String Bool
  variantOptionCount : Except String Nat
  selectVariantOption : Except String Unit
  atcClick : Except String Unit

/-! Selector candidate lists, verbatim from the source. -/

def titleSelectors : List String :=
  ["h1", "[data-product-title]", ".product-title", ".product__title",
   "h1[class*=\"title\"]", "h1[class*=\"product\"]"]

def descriptionSelectors : List String :=
  [".product-description", "[class*=\"description\"]", "[class*=\"detail\"]",
   ".product__description", "[data-description]", "div[class*=\"product\"] p", ".rte"]

def priceSelectors : List String :=
  [".product-price", "[data-product-price]", ".price__regular", ".price--main",
   ".price__sale", ".price-item--sale", "span.price",
   "span[class*=\"price\"]:not([class*=\"compare\"]):not([class*=\"was\"])",
   "[class*=\"current-price\"]", "[class*=\"sale-price\"]", "[class*=\"selling-price\"]",
   ".product__price", ".product-form__price",
   "span:has-text(\"₹\")", "span:has-text(\"$\")", "div[class*=\"price\"]"]

def compareSelectors : List String :=
  [".compare-at-price", "[class*=\"compare-price\"]", "[class*=\"original-price\"]",
   "[class*=\"was-price\"]", ".price__compare", ".price--compare",
   "s[class*=\"price\"]", "del[class*=\"price\"]", "[class*=\"regular-price\"]"]

def variantSelectors : List String :=
  ["select[name*=\"variant\"]", ".product-form__input", "[class*=\"variant-select\"]",
   "[class*=\"variant-selector\"]", "[class*=\"variant\"] button",
   "[class*=\"variant\"] input[type=\"radio\"]", ".variant-options",
   "fieldset[class*=\"variant\"]", "[data-variant-selector]"]

def cartSelectors : List String :=
  ["[href*=\"cart\"] .cart-count-bubble:visible", "[href*=\"/cart\"] [class*=\"count\"]:visible",
   ".cart__count:visible", ".cart-link__bubble:visible", "[data-cart-count]:visible",
   "a[href*=\"cart\"]:visible"]

def imageSelectors : List String :=
  [".product__media img", "[data-product-image]", ".product-image",
   "[class*=\"product-image\"]", ".product__main-image", ".featured-image img",
   "[role=\"img\"]", "img[src*=\"product\"]"]

def atcFallbackSelector : String :=
  "[name=\"add\"], .add-to-cart, [class*=\"add-to-cart\"]"

def thumbnailSelector : String :=
  "[class*=\"thumbnail\"], .product__media-item, [data-media-id]"

def variantSelectCombined : String :=
  "select[name*=\"variant\"], [class*=\"variant-select\"]"

/-- The `pdp-title-visible` selector loop: first candidate with a positive
count and a visible match wins; on the winner the text content is read and
`expect(titleText).toBeTruthy()` is asserted before the `break`. -/
def titleLoop (env : Env) : List String → EM (Bool × String)
  | [] => EM.pure (false, "")
  | sel :: rest => do
      let cnt ← liftE (env.count sel)
      if cnt > 0 then do
        let vis ← liftE (env.isVisible sel)
        if vis then do
          let titleText ← liftE (env.textContent sel)
          expectTruthyText titleText
          EM.pure (true, sel)
        else titleLoop env rest
      else titleLoop env rest

/-- The common `for (const selector of ...)` loop: return the first
candidate with a positive count and a visible match (`isVisible`,
`foundSelector`). -/
def findVisibleLoop (env : Env) : List String → EM (Bool × String)
  | [] => EM.pure (false, "")
  | sel :: rest => do
      let cnt ← liftE (env.count sel)
      if cnt > 0 then do
        let vis ← liftE (env.isVisible sel)
        if vis then EM.pure (true, sel) else findVisibleLoop env rest
      else findVisibleLoop env rest

/-- The `pdp-price-visible` loop: additionally captures
`(await element.textContent()) || ''` of the winner. -/
def priceLoop (env : Env) : List String → EM (Bool × String × String)
  | [] => EM.pure (false, "", "")
  | sel :: rest => do
      let cnt ← liftE (env.count sel)
      if cnt > 0 then do
        let vis ← liftE (env.isVisible sel)
        if vis then do
          let t ← liftE (env.textContent sel)
          EM.pure (true, sel, t.getD "")
        else priceLoop env rest
      else priceLoop env rest

/-- The `pdp-atc-works` cart-feedback loop: each iteration is wrapped in
`try/catch` and a thrown collaborator fault merely continues with the next
candidate. -/
def cartLoop (env : Env) : List String → EM (Bool × String)
  | [] => EM.pure (false, "")
  | sel :: rest =>
      match env.count sel with
      | Except.error _ => cartLoop env rest
      | Except.ok cnt =>
          if cnt > 0 then
            match env.isVisible sel with
            | Except.error _ => cartLoop env rest
            | Except.ok vis => if vis then EM.pure (true, sel) else cartLoop env rest
          else cartLoop env rest

/-- `testCoreInfo`. -/
def testCoreInfo (test : TestCase) (env : Env) : EM Unit :=
  if test.id == "pdp-title-visible" then do
    let r ← titleLoop env titleSelectors
    pushStep ⟨env.now, StepAction.assert, none,
      some (if r.2 == "" then "h1" else r.2), some (Value.bool r.1)⟩
    expectToBe r.1 true
  else if test.id == "pdp-description-visible" then do
    let r ← findVisibleLoop env descriptionSelectors
    pushStep ⟨env.now, StepAction.observe, some "find product description",
      some (if r.2 == "" then ".product-description" else r.2), some (Value.bool r.1)⟩
    expectToBe r.1 true
  else EM.pure ()

/-- `testPricing`. -/
def testPricing (test : TestCase) (env : Env) : EM Unit :=
  if test.id == "pdp-price-visible" then do
    let r ← priceLoop env priceSelectors
    pushStep ⟨env.now, StepAction.assert, none,
      some (if r.2.1 == "" then "[class*=\"price\"]" else r.2.1), some (Value.bool r.1)⟩
    expectToBe r.1 true
    expectMatchPrice r.2.2
  else if test.id == "pdp-compare-at-price-visible" then do
    let r ← findVisibleLoop env compareSelectors
    pushStep ⟨env.now, StepAction.assert, none,
      some (if r.2 == "" then "[class*=\"compare\"]" else r.2), some (Value.bool r.1)⟩
    expectToBe r.1 true
  else EM.pure ()

/-- `testVariants`. -/
def testVariants (test : TestCase) (env : Env) : EM Unit :=
  if test.id == "pdp-variant-selector-visible" then do
    let r ← findVisibleLoop env variantSelectors
    pushStep ⟨env.now, StepAction.observe, some "find variant selector",
      some (if r.2 == "" then "select[name*=\"variant\"]" else r.2), some (Value.bool r.1)⟩
    expectToBe r.1 true
  else if test.id == "pdp-variant-selection-works" then do
    let options ← liftE env.variantOptionCount
    if options > 1 then do
      _ ← liftE env.selectVariantOption
      pushStep ⟨env.now, StepAction.act, some "select variant option",
        some "select[name*=\"variant\"]", none⟩
    else EM.pure ()
  else EM.pure ()

/-- `testAddToCart`. -/
def testAddToCart (test : TestCase) (env : Env) : EM Unit :=
  if test.id == "pdp-atc-button-visible-and-enabled" then do
    let count0 ← liftE env.roleAtcCount
    let count ← if count0 == 0 then liftE (env.count atcFallbackSelector) else EM.pure count0
    pushStep ⟨env.now, StepAction.observe, some "find add to cart button",
      none, some (Value.bool (count > 0))⟩
    expectGreaterThan count 0
    let vis ← if count0 == 0 then liftE (env.isVisible atcFallbackSelector)
              else liftE env.roleAtcVisible
    let en ← if count0 == 0 then liftE (env.isEnabled atcFallbackSelector)
             else liftE env.roleAtcEnabled
    pushStep ⟨env.now, StepAction.assert, none, none, some (Value.pair vis en)⟩
    expectToBe vis true
    expectToBe en true
  else if test.id == "pdp-atc-works" then do
    _ ← liftE env.atcClick
    pushStep ⟨env.now, StepAction.act, some "click add to cart", none, none⟩
    -- `page.waitForTimeout(2000)` is a pure delay, a no-op in the model
    let r ← cartLoop env cartSelectors
    pushStep ⟨env.now, StepAction.assert, none,
      some (if r.2 == "" then "[href*=\"cart\"]:visible" else r.2), some (Value.bool r.1)⟩
  else EM.pure ()

/-- `testProductMedia`. -/
def testProductMedia (test : TestCase) (env : Env) : EM Unit :=
  if test.id == "pdp-main-image-visible" then do
    let r ← findVisibleLoop env imageSelectors
    pushStep ⟨env.now, StepAction.assert, none,
      some (if r.2 == "" then ".product__media img" else r.2), some (Value.bool r.1)⟩
    expectToBe r.1 true
  else if test.id == "pdp-image-gallery-works" then do
    let cnt ← liftE (env.count thumbnailSelector)
    pushStep ⟨env.now, StepAction.observe, some "find image thumbnails",
      none, some (Value.num cnt)⟩
    expectGreaterThan cnt 1
  else EM.pure ()

/-- `testGeneric`. -/
def testGeneric (test : TestCase) (env : Env) : EM Unit := do
  let isLoaded ← liftE (env.isVisible "body")
  pushStep ⟨env.now, StepAction.assert, some ("generic test: " ++ test.name),
    none, some (Value.bool isLoaded)⟩
  expectToBe isLoaded true

/-- The category dispatch at the top of `executeTest`'s `try` block. -/
def dispatchTest (test : TestCase) (env : Env) : EM Unit :=
  if test.category == "core-product-info" then testCoreInfo test env
  else if test.category == "pricing" then testPricing test env
  else if test.category == "variant-selection" then testVariants test env
  else if test.category == "add-to-cart" then testAddToCart test env
  else if test.category == "product-media" then testProductMedia test env
  else testGeneric test env

/-- `error.message || String(error)` of the catch block (an `Error` with an
empty message stringifies to `"Error"`). -/
def errorText (f : Fault) : String :=
  if f.message == "" then "Error" else f.message

/-- `executeTest`: run the category dispatch against a fresh log; on
success return a `pass` result, on a caught fault classify `fail` versus
`error` by whether the fault message mentions `expect`, keep the partial
log, and record the message. -/
def executeTest (test : TestCase) (env : Env) (startTime endTime : Nat) : TestResult :=
  match dispatchTest test env [] with
  | (log, Except.ok _) =>
      ⟨test.id, Status.pass, endTime - startTime, none, log⟩
  | (log, Except.error f) =>
      ⟨test.id, if strIncludes f.message "expect" then Status.fail else Status.error,
       endTime - startTime, some (errorText f), log⟩

/-! ## Code generator (`code-generator.ts`) -/

/-- `escapeSelector`: `.replace(/'/g, "\\'").replace(/"/g, '\\"')` — the
first pass introduces no double quote, so the two passes act per
character. -/
def escapeChar (c : Char) : List Char :=
  if c == '\x27' then ['\\', '\x27']
  else if c == '"' then ['\\', '"']
  else [c]

def escapeSelector (s : String) : String :=
  String.mk (s.toList.flatMap escapeChar)

def isQuoteChar (c : Char) : Bool :=
  c == '\x27' || c == '"'

/-- Match a literal character sequence at the head, returning the rest. -/
def dropLit : List Char → List Char → Option (List Char)
  | [], cs => some cs
  | _ :: _, [] => none
  | l :: ls, c :: cs => if l == c then dropLit ls cs else none

/-- Try the regex `LIT['"]([^'"]+)['"]\]` at the current position, where
`LIT` is the literal `[@name=` part; returns the capture.  The run
`[^'"]+` excludes quotes, so the greedy scan is exact: no backtracking can
make the pattern match here if this procedure fails. -/
def attrPatAt (lit : List Char) (cs : List Char) : Option (List Char) :=
  match dropLit lit cs with
  | none => none
  | some rest =>
      match rest with
      | [] => none
      | q :: rest2 =>
          if isQuoteChar q then
            let run := rest2.takeWhile (fun c => !(isQuoteChar c))
            if run.isEmpty then none
            else
              match rest2.drop run.length with
              | q2 :: b :: _ => if isQuoteChar q2 && b == ']' then some run else none
              | _ => none
          else none

/-- Leftmost match of the attribute-equality pattern (JavaScript
`String.prototype.match` returns the leftmost match). -/
def scanAttr (lit : List Char) : List Char → Option (List Char)
  | [] => none
  | c :: rest =>
      match attrPatAt lit (c :: rest) with
      | some run => some run
      | none => scanAttr lit rest

/-- `xpath.match(/\[@NAME=['"]([^'"]+)['"]\]/)`, returning capture 1. -/
def findAttrEquality (attrName : String) (s : String) : Option String :=
  (scanAttr ("[@" ++ attrName ++ "=").toList s.toList).map (fun run => String.mk run)

/-- `classMatch[1].split(' ')[0]`: the first token of a split on the space
character (not on general whitespace). -/
def firstSpaceToken (s : String) : String :=
  String.mk (s.toList.takeWhile (fun c => !(c == ' ')))

/-- The text appended when no conversion pattern matches. -/
def markerSuffix : String :=
  "\" /* TODO: Convert XPath to CSS */"

/-- `xpath = aiSelector.replace(/^xpath=/, '')`. -/
def stripXpathEq (s : String) : String :=
  if strStartsWith s "xpath=" then String.mk (s.toList.drop 6) else s

/-- `convertSelector`. -/
def convertSelector (aiSelector : String) : String :=
  if !(strStartsWith aiSelector "//") && !(strStartsWith aiSelector "xpath=") then
    escapeSelector aiSelector
  else
    let xpath := stripXpathEq aiSelector
    match findAttrEquality "data-testid" xpath with
    | some v => "[data-testid=\"" ++ v ++ "\"]"
    | none =>
        match findAttrEquality "class" xpath with
        | some v => "." ++ firstSpaceToken v
        | none =>
            match findAttrEquality "id" xpath with
            | some v => "#" ++ v
            | none => escapeSelector xpath ++ markerSuffix

/-- Template-literal rendering of a possibly-undefined string. -/
def renderOptStr : Option String → String
  | some s => s
  | none => "undefined"

/-- JavaScript truthiness of a recorded step result (`if (step.result)`). -/
def valueTruthy : Value → Bool
  | Value.bool b => b
  | Value.num n => !(n == 0)
  | Value.str s => !(s == "")
  | Value.pair _ _ => true

/-- `JSON.stringify` of a recorded step result. -/
def jsonOfValue : Value → String
  | Value.bool b => if b then "true" else "false"
  | Value.num n => toString n
  | Value.str s => "\"" ++ s ++ "\""
  | Value.pair v e =>
      "\x7b\"isVisible\":" ++ (if v then "true" else "false")
        ++ ",\"isEnabled\":" ++ (if e then "true" else "false") ++ "\x7d"

/-- The per-step fragment emitted inside `generateTestCase`'s loop. -/
def stepCode (step : ExecutionStep) : String :=
  match step.action with
  | StepAction.observe =>
      match step.selector with
      | some sel =>
          "    // Found via AI: " ++ renderOptStr step.instruction ++ "\n"
            ++ "    const element = page.locator(\x27" ++ convertSelector sel ++ "\x27);\n"
            ++ "    await expect(element).toBeVisible();\n\n"
      | none => ""
  | StepAction.act =>
      match step.instruction with
      | some instr =>
          if strIncludes instr.toLower "click" then
            if strIncludes instr.toLower "add to cart" then
              "    // Click add to cart button\n"
                ++ "    await page.getByRole(\x27button\x27, \x7b name: /add to cart/i \x7d).click();\n\n"
            else
              match step.selector with
              | some sel =>
                  "    // " ++ instr ++ "\n"
                    ++ "    await page.locator(\x27" ++ convertSelector sel ++ "\x27).click();\n\n"
              | none => ""
          else ""
      | none => ""
  | StepAction.extract =>
      "    // Data extraction: " ++ renderOptStr step.instruction ++ "\n"
        ++ (match step.result with
            | some v => if valueTruthy v then "    // Expected result: " ++ jsonOfValue v ++ "\n\n" else ""
            | none => "")
  | StepAction.assert =>
      match step.selector with
      | some sel =>
          "    await expect(page.locator(\x27" ++ convertSelector sel ++ "\x27)).toBeVisible();\n\n"
      | none =>
          match step.result with
          | some v => "    // Assertion passed: " ++ jsonOfValue v ++ "\n\n"
          | none => ""

/-- `generateTestCase(result, test)`. -/
def generateTestCase (result : TestResult) (test : TestCase) : String :=
  "  test(\x27" ++ test.id ++ " - " ++ test.name ++ "\x27, async (\x7b page \x7d) => \x7b\n"
    ++ "    // " ++ test.description ++ "\n\n"
    ++ String.join (result.executionLog.map stepCode)
    ++ "  \x7d);\n\n"

/-- Association-list read of a string-keyed record
(`record[key] : string | undefined`). -/
def assocFind (m : List (String × String)) (k : String) : Option String :=
  (m.find? (fun p => p.1 == k)).map (fun p => p.2)

/-- The `groupBy` key function: category of the referenced template,
`test?.category || 'unknown'`. -/
def categoryKey (lib : TestLibrary) (r : TestResult) : String :=
  match lib.templates.find? (fun t => t.id == r.testId) with
  | some t => if t.category == "" then "unknown" else t.category
  | none => "unknown"

/-- One `reduce` step of `groupBy`: push the item onto its key's group,
creating the key at the end on first occurrence (object keys iterate in
insertion order for the non-numeric category names used here). -/
def groupByInsert (acc : List (String × List TestResult)) (key : String) (r : TestResult) :
    List (String × List TestResult) :=
  match acc with
  | [] => [(key, [r])]
  | (k, rs) :: rest =>
      if k == key then (k, rs ++ [r]) :: rest else (k, rs) :: groupByInsert rest key r

/-- `groupBy(results, keyFn)` with the category key function. -/
def groupResults (lib : TestLibrary) (results : List TestResult) :
    List (String × List TestResult) :=
  results.foldl (fun acc r => groupByInsert acc (categoryKey lib r) r) []

/-- `testLibrary.categoryDefinitions[category] || category`. -/
def categoryDisplayName (lib : TestLibrary) (category : String) : String :=
  match assocFind lib.categoryDefinitions category with
  | some v => if v == "" then category else v
  | none => category

/-- `r.status === 'pass'`. -/
def Status.isPass : Status → Bool
  | Status.pass => true
  | _ => false

/-- The inner loop of a suite: one generated procedure per `pass`-status
result whose template is found (`if (test) code += generateTestCase`). -/
def proceduresOf (lib : TestLibrary) (categoryResults : List TestResult) : List String :=
  (categoryResults.filter (fun r => r.status.isPass)).map (fun r =>
    match lib.templates.find? (fun t => t.id == r.testId) with
    | some t => generateTestCase r t
    | none => "")

/-- One `test.describe` block. -/
def suiteBlock (lib : TestLibrary) (productUrl category : String)
    (categoryResults : List TestResult) : String :=
  "test.describe(\x27" ++ categoryDisplayName lib category ++ "\x27, () => \x7b\n"
    ++ "  test.beforeEach(async (\x7b page \x7d) => \x7b\n"
    ++ "    await page.goto(\x27" ++ productUrl ++ "\x27);\n"
    ++ "    await page.waitForLoadState(\x27networkidle\x27);\n"
    ++ "  \x7d);\n\n"
    ++ String.join (proceduresOf lib categoryResults)
    ++ "\x7d);\n\n"

/-- The file header (`generatedOn` supplies `new Date().toISOString()`). -/
def scriptHeader (generatedOn productUrl : String) : String :=
  "// Generated Playwright tests from Stagehand execution\n"
    ++ "// Generated on: " ++ generatedOn ++ "\n"
    ++ "// Product URL: " ++ productUrl ++ "\n\n"
    ++ "import \x7b test, expect \x7d from \x27@playwright/test\x27;\n\n"

/-- `generatePlaywrightCode(results, testLibrary, productUrl)`. -/
def generatePlaywrightCode (results : List TestResult) (lib : TestLibrary)
    (productUrl generatedOn : String) : String :=
  scriptHeader generatedOn productUrl
    ++ String.join ((groupResults lib results).map (fun g => suiteBlock lib productUrl g.1 g.2))

/-! ## Spec-side matching rule and concrete sample inputs -/

/-- Modelled from the spec's matching rule (§4.2), for comparison with the
source's `productStateMatches`: the value `"any"` is always included; a
single token iff that token is a member of the token set; a list of tokens
iff every token in the list is a member (conjunctive AND); any other shape
is excluded. -/
def SpecIncluded : ProductState → List String → Prop
  | ProductState.str s, tokens => s = "any" ∨ s ∈ tokens
  | ProductState.list l, tokens => ∀ x ∈ l, x ∈ tokens
  | ProductState.other, _ => False

instance instDecidableSpecIncluded (ps : ProductState) (tokens : List String) :
    Decidable (SpecIncluded ps tokens) := by
  cases ps with
  | str s => exact inferInstanceAs (Decidable (s = "any" ∨ s ∈ tokens))
  | list l => exact inferInstanceAs (Decidable (∀ x ∈ l, x ∈ tokens))
  | other => exact inferInstanceAs (Decidable False)

lemma contains_eq_decide_mem (tokens : List String) (s : String) :
    tokens.contains s = decide (s ∈ tokens) := by
  induction tokens with
  | nil => rfl
  | cons b bs ih => simp [List.contains_cons, ih, List.mem_cons]

lemma productStateMatches_eq_spec (ps : ProductState) (tokens : List String) :
    productStateMatches ps tokens = decide (SpecIncluded ps tokens) := by
  cases ps with
  | str s =>
      by_cases h : s = "any"
      · simp [productStateMatches, SpecIncluded, h]
      · simp [productStateMatches, SpecIncluded, h, contains_eq_decide_mem]
  | list l =>
      simp only [productStateMatches, SpecIncluded]
      induction l with
      | nil => rfl
      | cons x xs ih =>
          rw [List.all_cons, contains_eq_decide_mem, ih]
          simp [List.forall_mem_cons]
  | other => rfl

/-- A baseline catalog entry gated on the sentinel `"any"`. -/
def anyTestCase : TestCase :=
  ⟨"pdp-baseline", "Baseline", "baseline entry", "core-product-info", "P0",
   ⟨ProductState.str "any", "guest", "desktop"⟩⟩

/-- A catalog entry whose `productState` is the empty array `[]`. -/
def emptyListTestCase : TestCase :=
  ⟨"pdp-empty-pre", "Empty preconditions", "empty list entry", "pricing", "P0",
   ⟨ProductState.list [], "guest", "desktop"⟩⟩

/-! ## Claims about the test selector -/

/-- Claim C1: `selectApplicableTests` returns exactly the order-preserving
subsequence (a filter, hence a sublist) of the entries whose
`preconditions.productState` satisfies the spec's matching rule — `"any"`
always included, a single token iff it is a member of the token set, a
list iff every listed token is a member, any other shape excluded — and an
entry with `productState = "any"` is included for every token set,
including the empty one.  (Determinism under identical inputs is inherent:
the function is pure.) -/
theorem selectApplicableTests_matches_spec (tests : List TestCase) (tokens : List String) :
    selectApplicableTests tests tokens
      = tests.filter (fun t => decide (SpecIncluded t.preconditions.productState tokens))
    ∧ (selectApplicableTests tests tokens).Sublist tests
    ∧ (∀ t, t ∈ tests → t.preconditions.productState = ProductState.str "any" →
        t ∈ selectApplicableTests tests tokens) := by
  refine ⟨?_, ?_, ?_⟩
  · exact List.filter_congr (fun t _ => productStateMatches_eq_spec t.preconditions.productState tokens)
  · exact List.filter_sublist tests
  · intro t ht hany
    refine List.mem_filter.mpr ⟨ht, ?_⟩
    simp [productStateMatches, hany]

theorem selectApplicableTests_matches_spec_witness :
    anyTestCase ∈ selectApplicableTests [anyTestCase] [] :=
  (selectApplicableTests_matches_spec [anyTestCase] []).2.2 anyTestCase (by simp) rfl

/-- Claim C10: an entry whose `productState` is the empty array is included
for every capability token set — `Array.prototype.every` over an empty
array is vacuously true, and the defensive `return false` branch is not
reached for arrays. -/
theorem emptyList_precondition_included (tests : List TestCase) (tokens : List String) :
    productStateMatches (ProductState.list []) tokens = true
    ∧ (∀ t, t ∈ tests → t.preconditions.productState = ProductState.list [] →
        t ∈ selectApplicableTests tests tokens) := by
  refine ⟨rfl, ?_⟩
  intro t ht hempty
  refine List.mem_filter.mpr ⟨ht, ?_⟩
  simp [productStateMatches, hempty]

theorem emptyList_precondition_included_witness :
    emptyListTestCase ∈ selectApplicableTests [emptyListTestCase] [] :=
  (emptyList_precondition_included [emptyListTestCase] []).2 emptyListTestCase (by simp) rfl

/-! ## Claims about the capability detector -/

/-- Claim C6: on any thrown fault of the AI extraction call,
`detectCapabilities` does not propagate the fault and returns exactly the
minimal list `["any"]`. -/
theorem detectCapabilities_fault_minimal (m : String) :
    detectCapabilities (Except.error m) = ["any"] := rfl

/-- Claim C5 counterexample: the claim fails on the code.  On the
fault-recovery path the returned set `["any"]` contains neither
`in_stock` nor `out_of_stock` (so it does not contain exactly one of
them), and a successful extraction whose free-form `additionalStates`
mentions `out_of_stock` while `inStock` is true yields a set containing
both inventory tokens. -/
theorem detectCapabilities_inventory_cex :
    ("in_stock" ∉ detectCapabilities (Except.error "AI timeout")
      ∧ "out_of_stock" ∉ detectCapabilities (Except.error "AI timeout"))
    ∧ ("in_stock" ∈ detectCapabilities
          (Except.ok ⟨true, false, false, false, false, some ["out_of_stock"]⟩)
      ∧ "out_of_stock" ∈ detectCapabilities
          (Except.ok ⟨true, false, false, false, false, some ["out_of_stock"]⟩)) := by
  decide

/-- Claim C5 (amended): for every successful AI extraction whose
`additionalStates` (when present) mentions neither `in_stock` nor
`out_of_stock`, the returned token set contains the sentinel `any` and
exactly one of the two inventory tokens (`in_stock` iff `inStock`,
`out_of_stock` iff not); on the fault-recovery path the detector returns
exactly `["any"]`, which contains the sentinel but no inventory token. -/
theorem detectCapabilities_inventory_amended (result : DetectedCapabilities)
    (hadd : ∀ l, result.additionalStates = some l → "in_stock" ∉ l ∧ "out_of_stock" ∉ l) :
    "any" ∈ detectCapabilities (Except.ok result)
    ∧ ("in_stock" ∈ detectCapabilities (Except.ok result) ↔ result.inStock = true)
    ∧ ("out_of_stock" ∈ detectCapabilities (Except.ok result) ↔ result.inStock = false)
    ∧ (∀ m, detectCapabilities (Except.error m) = ["any"]) := by
  obtain ⟨a, b, c, d, e, add⟩ := result
  refine ⟨?_, ?_, ?_, fun m => rfl⟩ <;>
    cases add with
    | none =>
        cases a <;> cases b <;> cases c <;> cases d <;> cases e <;>
          simp [detectCapabilities]
    | some l =>
        obtain ⟨h1, h2⟩ := hadd l rfl
        by_cases hl : l.length > 0 <;>
          cases a <;> cases b <;> cases c <;> cases d <;> cases e <;>
            simp_all [detectCapabilities]

theorem detectCapabilities_inventory_amended_witness :
    "any" ∈ detectCapabilities (Except.ok ⟨true, true, false, false, true, some ["pre_order"]⟩)
    ∧ ("in_stock" ∈ detectCapabilities (Except.ok ⟨true, true, false, false, true, some ["pre_order"]⟩)
        ↔ True) := by
  have h := detectCapabilities_inventory_amended
    ⟨true, true, false, false, true, some ["pre_order"]⟩
    (by intro l hl; cases hl; exact ⟨by decide, by decide⟩)
  exact ⟨h.1, by simpa using h.2.1⟩

/-! ## Claims about the test executor -/

/-- A collaborator snapshot in which every structural query finds nothing:
counts are zero, nothing is visible or enabled, text is absent, and no
call throws. -/
def envAllMissing : Env :=
  ⟨0, fun _ => Except.ok 0, fun _ => Except.ok false, fun _ => Except.ok false,
   fun _ => Except.ok none, Except.ok 0, Except.ok false, Except.ok false,
   Except.ok 0, Except.ok (), Except.ok ()⟩

/-- The catalog entry for the title check. -/
def titleVisibleTest : TestCase :=
  ⟨"pdp-title-visible", "Product title is visible", "title check",
   "core-product-info", "P0", ⟨ProductState.str "any", "guest", "desktop"⟩⟩

lemma assertMessage_has_expect (k : AssertKind) :
    strIncludes (assertMessage k) "expect" = true := by
  cases k <;> decide

/-- Claim C3: when the dispatched category procedure throws a fault,
`executeTest` classifies the returned status by whether the fault signals
an assertion mismatch: given that collaborator faults (timeout, absent
element, AI failure) do not mention `expect` in their message, the status
is `fail` exactly for a fault raised by an `expect` matcher (an
expected-versus-actual mismatch) and `error` for every other fault. -/
theorem executeTest_fault_classification (test : TestCase) (env : Env) (t0 t1 : Nat)
    (f : Fault) (hthrow : (dispatchTest test env []).2 = Except.error f)
    (henv : ∀ m, f = Fault.env m → strIncludes m "expect" = false) :
    ((executeTest test env t0 t1).status = Status.fail ↔ f.isAssertion = true)
    ∧ ((executeTest test env t0 t1).status = Status.error ↔ f.isAssertion = false) := by
  unfold executeTest
  rcases hd : dispatchTest test env [] with ⟨log, out⟩
  rw [hd] at hthrow
  simp only at hthrow
  subst hthrow
  cases f with
  | assertion k =>
      simp [Fault.isAssertion, Fault.message, assertMessage_has_expect k]
  | env m =>
      simp [Fault.isAssertion, Fault.message, henv m rfl]

theorem executeTest_fault_classification_witness :
    (executeTest titleVisibleTest envAllMissing 0 5).status = Status.fail :=
  ((executeTest_fault_classification titleVisibleTest envAllMissing 0 5
      (Fault.assertion AssertKind.toBe) rfl
      (fun _ h => nomatch h)).1).mpr rfl

/-- Claim C8: `executeTest` is total over every dispatch outcome (a thrown
fault is caught, never propagated); the returned result carries the
entry's id, the elapsed time, and exactly the step log accumulated by the
dispatch up to the point it stopped (on a fault, the steps recorded before
the fault); the `error` field is present iff the status is not `pass`; and
on a thrown fault the status is never `pass` and the field carries the
fault's message. -/
theorem executeTest_seals_result (test : TestCase) (env : Env) (t0 t1 : Nat) :
    (executeTest test env t0 t1).testId = test.id
    ∧ (executeTest test env t0 t1).duration = t1 - t0
    ∧ (executeTest test env t0 t1).executionLog = (dispatchTest test env []).1
    ∧ ((executeTest test env t0 t1).error.isSome
        ↔ (executeTest test env t0 t1).status ≠ Status.pass)
    ∧ (∀ f, (dispatchTest test env []).2 = Except.error f →
        (executeTest test env t0 t1).status ≠ Status.pass
        ∧ (executeTest test env t0 t1).error = some (errorText f)) := by
  unfold executeTest
  rcases hd : dispatchTest test env [] with ⟨log, out⟩
  cases out with
  | ok a =>
      refine ⟨rfl, rfl, rfl, by simp, ?_⟩
      intro f hf
      simp at hf
  | error f' =>
      refine ⟨rfl, rfl, rfl, ?_, ?_⟩
      · by_cases h : strIncludes f'.message "expect" = true <;> simp [h]
      · intro f hf
        simp only at hf
        injection hf with hf2
        subst hf2
        by_cases h : strIncludes f'.message "expect" = true <;> simp [h]

theorem executeTest_seals_result_witness :
    (executeTest titleVisibleTest envAllMissing 2 7).status ≠ Status.pass
    ∧ (executeTest titleVisibleTest envAllMissing 2 7).error
        = some (errorText (Fault.assertion AssertKind.toBe)) :=
  (executeTest_seals_result titleVisibleTest envAllMissing 2 7).2.2.2.2
    (Fault.assertion AssertKind.toBe) rfl

/-! ## Claim C9: silent pass of unmatched ids inside known categories -/

/-- The categories with a specific procedure in `executeTest`'s dispatch. -/
def knownCategories : List String :=
  ["core-product-info", "pricing", "variant-selection", "add-to-cart", "product-media"]

/-- The ids carrying a hand-specified check inside each known category's
procedure. -/
def handledIds (category : String) : List String :=
  if category == "core-product-info" then
    ["pdp-title-visible", "pdp-description-visible"]
  else if category == "pricing" then
    ["pdp-price-visible", "pdp-compare-at-price-visible"]
  else if category == "variant-selection" then
    ["pdp-variant-selector-visible", "pdp-variant-selection-works"]
  else if category == "add-to-cart" then
    ["pdp-atc-button-visible-and-enabled", "pdp-atc-works"]
  else if category == "product-media" then
    ["pdp-main-image-visible", "pdp-image-gallery-works"]
  else []

/-- Claim C9: an entry whose category is one of the known categories but
whose id matches no hand-specified check inside that category's procedure
records no step and reports `pass` with an empty execution log (and no
error). -/
theorem unmatched_id_silently_passes (test : TestCase) (env : Env) (t0 t1 : Nat)
    (hcat : test.category ∈ knownCategories) (hid : test.id ∉ handledIds test.category) :
    executeTest test env t0 t1 = ⟨test.id, Status.pass, t1 - t0, none, []⟩ := by
  simp only [knownCategories, List.mem_cons, List.not_mem_nil, or_false] at hcat
  rcases hcat with h | h | h | h | h <;>
    · rw [h] at hid
      simp [handledIds] at hid
      simp [executeTest, dispatchTest, h, testCoreInfo, testPricing, testVariants,
        testAddToCart, testProductMedia, hid.1, hid.2, EM.pure]

def unmatchedIdTest : TestCase :=
  ⟨"pdp-free-shipping-badge", "Free shipping badge", "unhandled id",
   "pricing", "P1", ⟨ProductState.str "any", "guest", "desktop"⟩⟩

theorem unmatched_id_silently_passes_witness :
    executeTest unmatchedIdTest envAllMissing 3 10
      = ⟨"pdp-free-shipping-badge", Status.pass, 7, none, []⟩ :=
  unmatched_id_silently_passes unmatchedIdTest envAllMissing 3 10 (by decide) (by decide)

/-! ## Claim C2: the generation skip law -/

lemma map_congr_fun {α β : Type} (l : List α) (f g : α → β) (h : ∀ a, f a = g a) :
    l.map f = l.map g := by
  induction l with
  | nil => rfl
  | cons x xs ih => simp [h x, ih]

lemma groupByInsert_map (g : TestResult → TestResult) (key : String) (r : TestResult)
    (acc : List (String × List TestResult)) :
    groupByInsert (acc.map (fun p => (p.1, p.2.map g))) key (g r)
      = (groupByInsert acc key r).map (fun p => (p.1, p.2.map g)) := by
  induction acc with
  | nil => simp [groupByInsert]
  | cons p rest ih =>
      obtain ⟨k, rs⟩ := p
      by_cases h : k == key <;> simp [groupByInsert, h, ih]

lemma groupResults_map_aux (lib : TestLibrary) (g : TestResult → TestResult)
    (hkey : ∀ r, categoryKey lib (g r) = categoryKey lib r) :
    ∀ (results : List TestResult) (acc : List (String × List TestResult)),
      List.foldl (fun acc r => groupByInsert acc (categoryKey lib r) r)
          (acc.map (fun p => (p.1, p.2.map g))) (results.map g)
        = (List.foldl (fun acc r => groupByInsert acc (categoryKey lib r) r) acc results).map
            (fun p => (p.1, p.2.map g)) := by
  intro results
  induction results with
  | nil => intro acc; rfl
  | cons r rest ih =>
      intro acc
      simp only [List.map_cons, List.foldl_cons, hkey r, groupByInsert_map]
      exact ih (groupByInsert acc (categoryKey lib r) r)

lemma groupResults_map (lib : TestLibrary) (g : TestResult → TestResult)
    (hkey : ∀ r, categoryKey lib (g r) = categoryKey lib r) (results : List TestResult) :
    groupResults lib (results.map g)
      = (groupResults lib results).map (fun p => (p.1, p.2.map g)) := by
  have h := groupResults_map_aux lib g hkey results []
  simpa [groupResults] using h

lemma proceduresOf_map (lib : TestLibrary) (g : TestResult → TestResult)
    (hst : ∀ r, (g r).status = r.status) (hpass : ∀ r, r.status.isPass = true → g r = r)
    (rs : List TestResult) :
    proceduresOf lib (rs.map g) = proceduresOf lib rs := by
  induction rs with
  | nil => rfl
  | cons r rest ih =>
      simp only [proceduresOf, List.map_cons, List.filter_cons, hst r] at ih ⊢
      by_cases h : r.status.isPass = true
      · simp only [h, if_true, List.map_cons, hpass r h, ih]
      · simp [h, ih]

/-- Claim C2: the generated script contains zero procedures corresponding
to results with status other than `pass` — replacing every non-`pass`
result by an arbitrarily mangled result (any execution log, duration or
error, as long as its id and status are kept, which is all that grouping
reads) leaves the generated script unchanged, so nothing of a non-pass
result is ever emitted, not even as a commented or skipped block. -/
theorem generation_skip_law (results : List TestResult) (lib : TestLibrary)
    (productUrl generatedOn : String) (f : TestResult → TestResult)
    (hid : ∀ r, (f r).testId = r.testId) (hst : ∀ r, (f r).status = r.status) :
    generatePlaywrightCode (results.map (fun r => if r.status.isPass then r else f r))
        lib productUrl generatedOn
      = generatePlaywrightCode results lib productUrl generatedOn := by
  set g : TestResult → TestResult := fun r => if r.status.isPass then r else f r with hg
  have hgid : ∀ r, (g r).testId = r.testId := by
    intro r; by_cases h : r.status.isPass <;> simp [hg, h, hid r]
  have hgst : ∀ r, (g r).status = r.status := by
    intro r; by_cases h : r.status.isPass <;> simp [hg, h, hst r]
  have hkey : ∀ r, categoryKey lib (g r) = categoryKey lib r := by
    intro r; unfold categoryKey; rw [hgid r]
  have hpass : ∀ r, r.status.isPass = true → g r = r := by
    intro r h; simp [hg, h]
  unfold generatePlaywrightCode
  rw [groupResults_map lib g hkey results]
  refine congrArg _ (congrArg _ ?_)
  rw [List.map_map]
  refine map_congr_fun _ _ _ ?_
  intro p
  simp only [Function.comp]
  unfold suiteBlock
  rw [proceduresOf_map lib g hgst hpass p.2]

def wPassTemplate : TestCase :=
  ⟨"t1", "Title visible", "checks the title", "core-product-info", "P0",
   ⟨ProductState.str "any", "guest", "desktop"⟩⟩

def wFailTemplate : TestCase :=
  ⟨"t2", "Price visible", "checks the price", "core-product-info", "P0",
   ⟨ProductState.str "in_stock", "guest", "desktop"⟩⟩

def wLib : TestLibrary :=
  ⟨"1.0", "Shopify PDP Test Library", "library", ["pdp"],
   [wPassTemplate, wFailTemplate], [], [], [],
   [("core-product-info", "Core Product Info")]⟩

def wPassResult : TestResult :=
  ⟨"t1", Status.pass, 5, none,
   [⟨10, StepAction.assert, none, some ".product-title", some (Value.bool true)⟩]⟩

def wFailResult : TestResult :=
  ⟨"t2", Status.fail, 6, some "expect(received).toBe(expected)",
   [⟨11, StepAction.assert, none, some ".price", some (Value.bool false)⟩]⟩

def wScrub : TestResult → TestResult :=
  fun r => ⟨r.testId, r.status, 0, none, []⟩

theorem generation_skip_law_witness :
    generatePlaywrightCode
        ([wPassResult, wFailResult].map (fun r => if r.status.isPass then r else wScrub r))
        wLib "https://shop.example/p" "2026-01-01T00:00:00.000Z"
      = generatePlaywrightCode [wPassResult, wFailResult]
          wLib "https://shop.example/p" "2026-01-01T00:00:00.000Z" :=
  generation_skip_law [wPassResult, wFailResult] wLib "https://shop.example/p"
    "2026-01-01T00:00:00.000Z" wScrub (fun _ => rfl) (fun _ => rfl)

/-! ## Claim C4: selector conversion -/

/-- Claim C4 counterexample: the claim fails on the code.  For an AI-path
input matching none of the three patterns the original path query is NOT
returned verbatim before the marker — quotes get escaped first — and for
a class attribute whose tokens are separated by a tab the emitted class
selector keeps the tab: it is not the first whitespace-separated token. -/
theorem convertSelector_cex :
    (convertSelector "//div[@title=\x27x\x27]" ≠ "//div[@title=\x27x\x27]" ++ markerSuffix
      ∧ convertSelector "//div[@title=\x27x\x27]"
          = escapeSelector "//div[@title=\x27x\x27]" ++ markerSuffix)
    ∧ (convertSelector "//div[@class=\x27a\tb\x27]" = ".a\tb"
      ∧ (".a\tb" : String) ≠ ".a") := by
  exact ⟨⟨by decide, by decide⟩, by decide, by decide⟩

/-- Claim C4 (amended): a non-AI-path input (not starting with `//` or
`xpath=`) is returned unchanged apart from quote-escaping; an AI-path
input is matched, after stripping a leading `xpath=`, against the
`data-testid`, `class` and `id` attribute-equality patterns in that
priority order, converting respectively to `[data-testid="..."]`, to a
class selector built from the first SPACE-separated class token, and to
`#...`; if none match, the quote-ESCAPED path query (not the verbatim one)
is returned with the appended human-readable marker.  (Conversion is a
pure function, so converting twice yields the same output.) -/
theorem convertSelector_amended (s : String) :
    (strStartsWith s "//" = false → strStartsWith s "xpath=" = false →
      convertSelector s = escapeSelector s)
    ∧ (∀ v, (strStartsWith s "//" = true ∨ strStartsWith s "xpath=" = true) →
        findAttrEquality "data-testid" (stripXpathEq s) = some v →
        convertSelector s = "[data-testid=\"" ++ v ++ "\"]")
    ∧ (∀ v, (strStartsWith s "//" = true ∨ strStartsWith s "xpath=" = true) →
        findAttrEquality "data-testid" (stripXpathEq s) = none →
        findAttrEquality "class" (stripXpathEq s) = some v →
        convertSelector s = "." ++ firstSpaceToken v)
    ∧ (∀ v, (strStartsWith s "//" = true ∨ strStartsWith s "xpath=" = true) →
        findAttrEquality "data-testid" (stripXpathEq s) = none →
        findAttrEquality "class" (stripXpathEq s) = none →
        findAttrEquality "id" (stripXpathEq s) = some v →
        convertSelector s = "#" ++ v)
    ∧ ((strStartsWith s "//" = true ∨ strStartsWith s "xpath=" = true) →
        findAttrEquality "data-testid" (stripXpathEq s) = none →
        findAttrEquality "class" (stripXpathEq s) = none →
        findAttrEquality "id" (stripXpathEq s) = none →
        convertSelector s = escapeSelector (stripXpathEq s) ++ markerSuffix) := by
  refine ⟨?_, ?_, ?_, ?_, ?_⟩
  · intro h1 h2
    simp [convertSelector, h1, h2]
  · intro v hor h1
    have hc : (!(strStartsWith s "//") && !(strStartsWith s "xpath=")) = false := by
      rcases hor with h | h <;> simp [h]
    simp [convertSelector, hc, h1]
  · intro v hor h1 h2
    have hc : (!(strStartsWith s "//") && !(strStartsWith s "xpath=")) = false := by
      rcases hor with h | h <;> simp [h]
    simp [convertSelector, hc, h1, h2]
  · intro v hor h1 h2 h3
    have hc : (!(strStartsWith s "//") && !(strStartsWith s "xpath=")) = false := by
      rcases hor with h | h <;> simp [h]
    simp [convertSelector, hc, h1, h2, h3]
  · intro hor h1 h2 h3
    have hc : (!(strStartsWith s "//") && !(strStartsWith s "xpath=")) = false := by
      rcases hor with h | h <;> simp [h]
    simp [convertSelector, hc, h1, h2, h3]

theorem convertSelector_amended_witness :
    convertSelector "//button[@data-testid=\x27add-to-cart\x27]"
      = "[data-testid=\"add-to-cart\"]" :=
  (convertSelector_amended "//button[@data-testid=\x27add-to-cart\x27]").2.1
    "add-to-cart" (Or.inl (by decide)) (by decide)

/-! ## Claim C7: end-to-end scenario -/

def e2eT1 : TestCase :=
  ⟨"t1", "Baseline check", "always applicable", "core-product-info", "P0",
   ⟨ProductState.str "any", "guest", "desktop"⟩⟩

def e2eT2 : TestCase :=
  ⟨"t2", "Stock check", "needs stock", "core-product-info", "P0",
   ⟨ProductState.str "in_stock", "guest", "desktop"⟩⟩

def e2eT3 : TestCase :=
  ⟨"t3", "Sale variant check", "needs variants on sale", "core-product-info", "P0",
   ⟨ProductState.list ["has_variants", "on_sale"], "guest", "desktop"⟩⟩

def e2eLib : TestLibrary :=
  ⟨"1.0", "Shopify PDP Test Library", "library", ["pdp"],
   [e2eT1, e2eT2, e2eT3], [], [], [],
   [("core-product-info", "Core Product Info")]⟩

def e2eR1 : TestResult :=
  ⟨"t1", Status.pass, 4, none,
   [⟨1, StepAction.assert, none, some "h1", some (Value.bool true)⟩]⟩

def e2eR2 : TestResult :=
  ⟨"t2", Status.pass, 4, none,
   [⟨2, StepAction.assert, none, some ".product-price", some (Value.bool true)⟩]⟩

/-- Claim C7: on the concrete three-entry catalog with detected tokens
`in_stock, has_variants, any`, selection yields exactly `t1, t2` in order
and excludes `t3`; and when `t1` and `t2` both pass with one `assert` step
each bearing a structural selector, the generated script consists of
exactly one suite containing exactly the two procedures for `t1` and `t2`
in that order. -/
theorem endToEnd_scenario :
    selectApplicableTests [e2eT1, e2eT2, e2eT3] ["in_stock", "has_variants", "any"]
        = [e2eT1, e2eT2]
    ∧ e2eT3 ∉ selectApplicableTests [e2eT1, e2eT2, e2eT3] ["in_stock", "has_variants", "any"]
    ∧ groupResults e2eLib [e2eR1, e2eR2] = [("core-product-info", [e2eR1, e2eR2])]
    ∧ proceduresOf e2eLib [e2eR1, e2eR2]
        = [generateTestCase e2eR1 e2eT1, generateTestCase e2eR2 e2eT2]
    ∧ generatePlaywrightCode [e2eR1, e2eR2] e2eLib "https://shop.example/p" "ts"
        = scriptHeader "ts" "https://shop.example/p"
          ++ suiteBlock e2eLib "https://shop.example/p" "core-product-info" [e2eR1, e2eR2] := by
  have hjoin : ∀ x : String, String.join [x] = x := by
    intro x
    obtain ⟨d⟩ := x
    rfl
  refine ⟨by decide, by decide, by decide, rfl, ?_⟩
  show scriptHeader "ts" "https://shop.example/p"
      ++ String.join ((groupResults e2eLib [e2eR1, e2eR2]).map
          (fun g => suiteBlock e2eLib "https://shop.example/p" g.1 g.2)) = _
  have hg : groupResults e2eLib [e2eR1, e2eR2] = [("core-product-info", [e2eR1, e2eR2])] := by
    decide
  rw [hg, List.map_singleton, hjoin]
